import Mathlib

/-!
Shallow embedding of `djangosaml2/backends.py` (class `Saml2Backend`).

The Python module defines a Django authentication backend with four methods:
`authenticate`, `clean_username`, `configure_user` and `update_user`.  We
translate them into pure Lean functions:

* Python dicts (the attribute bag `ava`, the attribute mapping, and
  `session_info`) become association lists `List (String × _)`; dict
  membership is `dlookup` returning `some`, and `.items()` iteration is
  iteration over the list in order.
* A Django user object is modelled as a record holding its attribute/value
  pairs (`hasattr` is key membership, `setattr` replaces the value) plus a
  boolean recording whether the password is usable
  (`set_unusable_password` clears it).
* The auxiliary profile object is a record of attribute/value pairs; the
  outcome of `user.get_profile()` (a profile, or one of the two exceptions
  the code catches) is passed in as a `ProfileResult` argument.
* `User.objects` is modelled by a list of users passed to `authenticate`;
  `get_or_create(username=u)` is a lookup that falls back to `newUser`.
* Exceptions that the code can let escape are modelled with `Except`:
  indexing `attributes[saml_attr][0]` raises `KeyError` when the key is
  absent (caught in `update_user`, never reachable in `authenticate`'s
  extraction loop) and `IndexError` when the value list is empty (never
  caught).  Saves cannot fail in the model; the outcome records whether
  `user.save()` / `profile.save()` were called.
* `logger.error` calls become strings accumulated in the result;
  `logger.debug` calls are dropped.
-/

/-- Exceptions that can escape the modelled functions.  Only `IndexError`
(from `attributes[saml_attr][0]` on an empty value list) is never caught. -/
inductive PyErr where
  | indexError
  deriving Repr, DecidableEq

/-- Outcomes of evaluating `attributes[saml_attr][0]` on a Python dict of
lists: the key may be absent (`KeyError`) or its list empty (`IndexError`). -/
inductive AccessErr where
  | keyError
  | indexError
  deriving Repr, DecidableEq

/-- An attribute bag (`ava`): assertion attribute name to list of values. -/
abbrev Bag := List (String × List String)

/-- An attribute mapping: assertion attribute name to local field names. -/
abbrev Mapping := List (String × List String)

/-- Python dict lookup on an association list (keys are unique in a dict,
so first match suffices). -/
def dlookup {α : Type} (l : List (String × α)) (k : String) : Option α :=
  match l with
  | [] => none
  | (k1, v) :: rest => if k1 = k then some v else dlookup rest k

/-- Evaluation of the Python expression `attributes[saml_attr][0]`. -/
def getItem0 (attributes : Bag) (k : String) : Except AccessErr String :=
  match dlookup attributes k with
  | none => .error .keyError
  | some [] => .error .indexError
  | some (v :: _) => .ok v

/-- A Django user object: its attribute/value pairs (strings suffice for
the mapped fields) and whether its password is usable. -/
structure UserObj where
  fields : List (String × String)
  passwordUsable : Bool
  deriving Repr, DecidableEq

/-- An auxiliary profile object associated 1:1 with a user. -/
structure ProfileObj where
  fields : List (String × String)
  deriving Repr, DecidableEq

/-- Python `setattr` on an attribute/value list: replace the value of an
existing key, append the pair when the key is new. -/
def setField (l : List (String × String)) (a v : String) : List (String × String) :=
  match l with
  | [] => [(a, v)]
  | (k, w) :: rest => if k = a then (k, v) :: rest else (k, w) :: setField rest a v

/-- Python `hasattr(user, attr)`. -/
def hasattrU (u : UserObj) (a : String) : Bool :=
  (dlookup u.fields a).isSome

/-- Python `setattr(user, attr, v)`. -/
def setattrU (u : UserObj) (a v : String) : UserObj :=
  { u with fields := setField u.fields a v }

/-- Python `hasattr(profile, attr)`. -/
def hasattrP (p : ProfileObj) (a : String) : Bool :=
  (dlookup p.fields a).isSome

/-- Python `setattr(profile, attr, v)`. -/
def setattrP (p : ProfileObj) (a v : String) : ProfileObj :=
  { p with fields := setField p.fields a v }

/-- Result of calling `user.get_profile()`: a profile, or one of the two
exceptions that `update_user` catches. -/
inductive ProfileResult where
  | ok (p : ProfileObj)
  | objectDoesNotExist
  | siteProfileNotAvailable
  deriving Repr, DecidableEq

/-- The try/except around `user.get_profile()` in `update_user`: both
`ObjectDoesNotExist` and `SiteProfileNotAvailable` yield `profile = None`. -/
def toProfileOpt : ProfileResult → Option ProfileObj
  | .ok p => some p
  | .objectDoesNotExist => none
  | .siteProfileNotAvailable => none

/-- Mutable state of `update_user`'s main loop: the user, the (optional)
profile, and the `user_modified` / `profile_modified` flags. -/
structure UState where
  user : UserObj
  profile : Option ProfileObj
  user_modified : Bool
  profile_modified : Bool
  deriving Repr, DecidableEq

/-- Inner loop of `update_user` for one mapping entry, inside the
`try ... except KeyError: pass` block: for each field name, if the user
exposes it, set it from `attributes[saml_attr][0]`; else if a profile is
available and exposes it, set it there.  A `KeyError` aborts the entry
keeping the state reached so far; an `IndexError` propagates. -/
def runEntry (attributes : Bag) (saml_attr : String) :
    List String → UState → Except PyErr UState
  | [], st => .ok st
  | attr :: rest, st =>
    if hasattrU st.user attr then
      match getItem0 attributes saml_attr with
      | .ok v =>
          runEntry attributes saml_attr rest
            { st with user := setattrU st.user attr v, user_modified := true }
      | .error .keyError => .ok st
      | .error .indexError => .error .indexError
    else
      match st.profile with
      | some p =>
        if hasattrP p attr then
          match getItem0 attributes saml_attr with
          | .ok v =>
              runEntry attributes saml_attr rest
                { st with profile := some (setattrP p attr v), profile_modified := true }
          | .error .keyError => .ok st
          | .error .indexError => .error .indexError
        else runEntry attributes saml_attr rest st
      | none => runEntry attributes saml_attr rest st

/-- Outer loop of `update_user` over `attribute_mapping.items()`. -/
def updateLoop (attributes : Bag) : Mapping → UState → Except PyErr UState
  | [], st => .ok st
  | entry :: rest, st =>
    match runEntry attributes entry.1 entry.2 st with
    | .ok st1 => updateLoop attributes rest st1
    | .error e => .error e

/-- Result of `update_user`: the (possibly modified) user, the final state
of the loaded profile (`none` when unavailable or never loaded), and
whether `user.save()` / `profile.save()` were called. -/
structure UpdateOutcome where
  user : UserObj
  profile : Option ProfileObj
  userSaved : Bool
  profileSaved : Bool
  deriving Repr, DecidableEq

/-- Translation of `Saml2Backend.update_user`. -/
def update_user (user : UserObj) (attributes : Bag) (attribute_mapping : Mapping)
    (profileRes : ProfileResult) (force_save : Bool) : Except PyErr UpdateOutcome :=
  if attribute_mapping.isEmpty then
    .ok { user := user, profile := none, userSaved := false, profileSaved := false }
  else
    let profile := toProfileOpt profileRes
    match updateLoop attributes attribute_mapping
        { user := user, profile := profile,
          user_modified := false, profile_modified := false } with
    | .error e => .error e
    | .ok st =>
      .ok { user := st.user, profile := st.profile,
            userSaved := st.user_modified || force_save,
            profileSaved := st.profile.isSome && (st.profile_modified || force_save) }

/-- Translation of `Saml2Backend.clean_username`: the identity by default. -/
def clean_username (username : String) : String :=
  username

/-- Python `user.set_unusable_password()`. -/
def set_unusable_password (u : UserObj) : UserObj :=
  { u with passwordUsable := false }

/-- Translation of `Saml2Backend.configure_user`: mark the password
unusable, then delegate to `update_user` with `force_save=True`. -/
def configure_user (user : UserObj) (attributes : Bag) (attribute_mapping : Mapping)
    (profileRes : ProfileResult) : Except PyErr UpdateOutcome :=
  update_user (set_unusable_password user) attributes attribute_mapping profileRes true

/-- Username-extraction loop of `authenticate`: iterate the mapping; for
each entry with `'username' in django_fields and saml_attr in attributes`,
overwrite `saml_user` with `attributes[saml_attr][0]`.  Since the key is
known present, only `IndexError` can escape. -/
def extractLoop (attributes : Bag) : Option String → Mapping → Except PyErr (Option String)
  | saml_user, [] => .ok saml_user
  | saml_user, entry :: rest =>
    if entry.2.contains "username" && (dlookup attributes entry.1).isSome then
      match getItem0 attributes entry.1 with
      | .ok v => extractLoop attributes (some v) rest
      | .error _ => .error .indexError
    else extractLoop attributes saml_user rest

/-- The modelled user database (`User.objects`), keyed by username. -/
abbrev DB := List UserObj

/-- Python `User.objects.get(username=username)` (and the lookup half of
`get_or_create`). -/
def dbGet (db : DB) (username : String) : Option UserObj :=
  db.find? fun u => dlookup u.fields "username" == some username

/-- A freshly created Django `User`, as built by
`User.objects.get_or_create(username=username)`: the username plus the
empty-string defaults of the standard user model, usable password. -/
def newUser (username : String) : UserObj :=
  { fields := [("username", username), ("first_name", ""), ("last_name", ""),
               ("email", ""), ("password", "")],
    passwordUsable := true }

/-- Result of `authenticate`: the error-level log messages emitted, and
the returned user (`none` for Python `None`). -/
structure AuthResult where
  logs : List String
  user : Option UserObj
  deriving Repr, DecidableEq

/-- Translation of `Saml2Backend.authenticate`.  `db` models
`User.objects`; `profileRes` models what `user.get_profile()` would
yield inside `update_user`. -/
def authenticate (db : DB) (profileRes : ProfileResult)
    (session_info : Option (List (String × Bag)))
    (attribute_mapping : Option Mapping)
    (create_unknown_user : Bool) : Except PyErr AuthResult :=
  match session_info, attribute_mapping with
  | none, _ =>
      .ok { logs := ["Session info or attribute mapping are None"], user := none }
  | some _, none =>
      .ok { logs := ["Session info or attribute mapping are None"], user := none }
  | some si, some am =>
    match dlookup si "ava" with
    | none => .ok { logs := ["\"ava\" key not found in session_info"], user := none }
    | some attributes =>
      let logs0 := if attributes.isEmpty then ["The attributes dictionary is empty"] else []
      match extractLoop attributes none am with
      | .error e => .error e
      | .ok none => .ok { logs := logs0 ++ ["Could not find saml_user value"], user := none }
      | .ok (some saml_user) =>
        let username := clean_username saml_user
        if create_unknown_user then
          match dbGet db username with
          | some user =>
            match update_user user attributes am profileRes false with
            | .error e => .error e
            | .ok out => .ok { logs := logs0, user := some out.user }
          | none =>
            match configure_user (newUser username) attributes am profileRes with
            | .error e => .error e
            | .ok out => .ok { logs := logs0, user := some out.user }
        else
          match dbGet db username with
          | some user =>
            match update_user user attributes am profileRes false with
            | .error e => .error e
            | .ok out => .ok { logs := logs0, user := some out.user }
          | none =>
            .ok { logs := logs0 ++ ["The user \"" ++ username ++ "\" does not exist"],
                  user := none }

/-! ## Specification-side definitions

These follow the spec's words (not the code) and are compared with the
translated functions in the refinement theorems below. -/

/-- Decidable well-formedness of an attribute bag: every value list is
non-empty, the data model's invariant for `ava` ("mapping from
assertion-attribute-name to a non-empty ordered sequence of values"). -/
def bagOk (attributes : Bag) : Bool :=
  attributes.all fun p => !p.2.isEmpty

/-- Username extraction written from the spec's words: "iterate all mapping
entries; for each entry whose local-field list contains `username` and whose
attribute key exists in the bag, take the bag's first value as the candidate
username.  Last matching entry wins if several qualify." -/
def specUsername (attributes : Bag) : Option String → Mapping → Option String
  | acc, [] => acc
  | acc, entry :: rest =>
    if entry.2.contains "username" && (dlookup attributes entry.1).isSome then
      specUsername attributes ((dlookup attributes entry.1).getD []).head? rest
    else specUsername attributes acc rest

/-- Processing of a single mapping entry written from the spec's words,
given the bag's first value `v` for the entry's attribute key: "for each
field name: if the account exposes that field, set it from the bag's first
value; else if a profile is available and it exposes that field, set it
there instead". -/
def specEntry (v : String) : List String → UState → UState
  | [], st => st
  | attr :: rest, st =>
    if hasattrU st.user attr then
      specEntry v rest { st with user := setattrU st.user attr v, user_modified := true }
    else
      match st.profile with
      | some p =>
        if hasattrP p attr then
          specEntry v rest
            { st with profile := some (setattrP p attr v), profile_modified := true }
        else specEntry v rest st
      | none => specEntry v rest st

/-- Processing of the whole mapping written from the spec's words: entries
whose attribute key is missing from the bag are skipped silently; an entry
whose key is present is processed with the bag's first value. -/
def specLoop (attributes : Bag) : Mapping → UState → UState
  | [], st => st
  | entry :: rest, st =>
    match dlookup attributes entry.1 with
    | none => specLoop attributes rest st
    | some vs =>
      match vs.head? with
      | some v => specLoop attributes rest (specEntry v entry.2 st)
      | none => specLoop attributes rest st

/-- Whether some field of `st`'s user or of its (optional) profile has the
name `a`; this is the "set-if-supported" test of `update_user`. -/
def exposes (st : UState) (a : String) : Bool :=
  hasattrU st.user a ||
    match st.profile with
    | some p => hasattrP p a
    | none => false

/-- Whether a mapping entry assigns at least one field of the user `u`:
its attribute key is in the bag and some listed field name is exposed by
`u`.  Assignments to equal values count. -/
def entryAssignsUser (u : UserObj) (attributes : Bag) (e : String × List String) : Bool :=
  (dlookup attributes e.1).isSome && e.2.any fun a => hasattrU u a

/-- Whether some mapping entry assigns a field of the user `u`. -/
def anyUserAssigned (u : UserObj) (attributes : Bag) (am : Mapping) : Bool :=
  am.any (entryAssignsUser u attributes)

/-! ## Helper lemmas -/

/-- In a well-formed bag, no key maps to the empty value list. -/
theorem bagOk_dlookup (attributes : Bag) (h : bagOk attributes = true) :
    ∀ k vs, dlookup attributes k = some vs → vs ≠ [] := by
  induction attributes with
  | nil => intro k vs hk; simp [dlookup] at hk
  | cons p rest ih =>
    intro k vs hk
    simp only [bagOk, List.all_cons, Bool.and_eq_true] at h
    simp only [dlookup] at hk
    by_cases hpk : p.1 = k
    · rw [if_pos hpk] at hk
      cases hk
      intro hnil
      rw [hnil] at h
      simp at h
    · rw [if_neg hpk] at hk
      exact ih (by simpa [bagOk] using h.2) k vs hk

/-- Replacing the value of a present key leaves key membership unchanged. -/
theorem dlookup_setField (a v : String) :
    ∀ (l : List (String × String)), (dlookup l a).isSome = true →
      ∀ b, (dlookup (setField l a v) b).isSome = (dlookup l b).isSome := by
  intro l
  induction l with
  | nil => intro h; simp [dlookup] at h
  | cons p rest ih =>
    intro h b
    obtain ⟨k, w⟩ := p
    by_cases hk : k = a
    · subst hk
      simp only [setField, if_pos rfl]
      by_cases hb : k = b <;> simp [dlookup, hb]
    · simp only [setField, if_neg hk]
      simp only [dlookup, if_neg hk] at h
      by_cases hb : k = b
      · simp [dlookup, hb]
      · simp only [dlookup, if_neg hb]
        exact ih h b

/-- Python `setattr` on a present user attribute does not change which
attributes the user has. -/
theorem hasattrU_setattrU (u : UserObj) (a v : String) (h : hasattrU u a = true) :
    ∀ b, hasattrU (setattrU u a v) b = hasattrU u b := by
  intro b
  exact dlookup_setField a v u.fields h b

/-- Python `setattr` on a present profile attribute does not change which
attributes the profile has. -/
theorem hasattrP_setattrP (p : ProfileObj) (a v : String) (h : hasattrP p a = true) :
    ∀ b, hasattrP (setattrP p a v) b = hasattrP p b := by
  intro b
  exact dlookup_setField a v p.fields h b

/-- A mapping entry whose attribute key is missing from the bag leaves the
state untouched: every access raises `KeyError`, which the code catches. -/
theorem runEntry_key_missing (attributes : Bag) (k : String)
    (h : dlookup attributes k = none) :
    ∀ (attrs : List String) (st : UState), runEntry attributes k attrs st = .ok st := by
  intro attrs
  induction attrs with
  | nil => intro st; rfl
  | cons attr rest ih =>
    intro st
    have hg : getItem0 attributes k = .error .keyError := by
      simp [getItem0, h]
    cases hu : hasattrU st.user attr with
    | true => simp [runEntry, hu, hg]
    | false =>
      cases hp : st.profile with
      | none => simp [runEntry, hu, hp, ih]
      | some p =>
        cases hq : hasattrP p attr with
        | true => simp [runEntry, hu, hp, hq, hg]
        | false => simp [runEntry, hu, hp, hq, ih]

/-- A mapping entry whose attribute key has a non-empty value list behaves
exactly as the specification's per-entry processing with the first value. -/
theorem runEntry_key_present (attributes : Bag) (k v : String) (vs : List String)
    (h : dlookup attributes k = some (v :: vs)) :
    ∀ (attrs : List String) (st : UState),
      runEntry attributes k attrs st = .ok (specEntry v attrs st) := by
  intro attrs
  induction attrs with
  | nil => intro st; rfl
  | cons attr rest ih =>
    intro st
    have hg : getItem0 attributes k = .ok v := by simp [getItem0, h]
    cases hu : hasattrU st.user attr with
    | true => simp [runEntry, specEntry, hu, hg, ih]
    | false =>
      cases hp : st.profile with
      | none => simp [runEntry, specEntry, hu, hp, ih]
      | some p =>
        cases hq : hasattrP p attr with
        | true => simp [runEntry, specEntry, hu, hp, hq, hg, ih]
        | false => simp [runEntry, specEntry, hu, hp, hq, ih]

/-- On a well-formed bag, the code's update loop computes exactly the
specification's loop (entries with missing keys skipped, others processed
with the bag's first value), and never raises. -/
theorem updateLoop_eq_specLoop (attributes : Bag) (h : bagOk attributes = true) :
    ∀ (am : Mapping) (st : UState),
      updateLoop attributes am st = .ok (specLoop attributes am st) := by
  intro am
  induction am with
  | nil => intro st; rfl
  | cons entry rest ih =>
    intro st
    cases hk : dlookup attributes entry.1 with
    | none =>
      simp [updateLoop, specLoop, hk, runEntry_key_missing attributes entry.1 hk, ih]
    | some vs =>
      cases vs with
      | nil => exact absurd rfl (bagOk_dlookup attributes h entry.1 [] hk)
      | cons v vs1 =>
        simp [updateLoop, specLoop, hk,
          runEntry_key_present attributes entry.1 v vs1 hk, ih]

/-- Frame properties of per-entry processing: it never changes which
attributes the user (or the user/profile pair) has, never touches the
password-usable flag or the presence of the profile, and it sets
`user_modified` exactly when some listed field name is an attribute of the
user. -/
theorem specEntry_frame (v : String) :
    ∀ (attrs : List String) (st : UState),
      (∀ b, hasattrU (specEntry v attrs st).user b = hasattrU st.user b) ∧
      (∀ b, exposes (specEntry v attrs st) b = exposes st b) ∧
      (specEntry v attrs st).user.passwordUsable = st.user.passwordUsable ∧
      (specEntry v attrs st).profile.isSome = st.profile.isSome ∧
      (specEntry v attrs st).user_modified
        = (st.user_modified || attrs.any fun a => hasattrU st.user a) := by
  intro attrs
  induction attrs with
  | nil => intro st; simp [specEntry]
  | cons attr rest ih =>
    intro st
    cases hu : hasattrU st.user attr with
    | true =>
      have hdom : ∀ b, hasattrU (setattrU st.user attr v) b = hasattrU st.user b :=
        hasattrU_setattrU st.user attr v hu
      obtain ⟨ih1, ih2, ih3, ih4, ih5⟩ :=
        ih { st with user := setattrU st.user attr v, user_modified := true }
      simp only [specEntry, hu, if_true]
      refine ⟨?_, ?_, ?_, ?_, ?_⟩
      · intro b; rw [ih1 b]; exact hdom b
      · intro b; rw [ih2 b]; simp [exposes, hdom b]
      · rw [ih3]; rfl
      · rw [ih4]
      · rw [ih5]; simp [hu]
    | false =>
      cases hp : st.profile with
      | none =>
        obtain ⟨ih1, ih2, ih3, ih4, ih5⟩ := ih st
        simp only [specEntry, hu, Bool.false_eq_true, if_false, hp]
        exact ⟨ih1, ih2, ih3, by rw [ih4, hp], by rw [ih5]; simp [hu]⟩
      | some p =>
        cases hq : hasattrP p attr with
        | true =>
          have hdomp : ∀ b, hasattrP (setattrP p attr v) b = hasattrP p b :=
            hasattrP_setattrP p attr v hq
          obtain ⟨ih1, ih2, ih3, ih4, ih5⟩ :=
            ih { st with profile := some (setattrP p attr v), profile_modified := true }
          simp only [specEntry, hu, Bool.false_eq_true, if_false, hp, hq, if_true]
          refine ⟨?_, ?_, ?_, ?_, ?_⟩
          · intro b; rw [ih1 b]
          · intro b; rw [ih2 b]; simp [exposes, hp, hdomp b]
          · rw [ih3]
          · rw [ih4]; rfl
          · rw [ih5]; simp [hu]
        | false =>
          obtain ⟨ih1, ih2, ih3, ih4, ih5⟩ := ih st
          simp only [specEntry, hu, Bool.false_eq_true, if_false, hp, hq]
          exact ⟨ih1, ih2, ih3, by rw [ih4, hp], by rw [ih5]; simp [hu]⟩

/-- Whether an entry assigns a user field depends only on which attributes
the user has. -/
theorem entryAssignsUser_congr (u1 u2 : UserObj) (attributes : Bag)
    (h : ∀ b, hasattrU u1 b = hasattrU u2 b) :
    ∀ e, entryAssignsUser u1 attributes e = entryAssignsUser u2 attributes e := by
  intro e
  unfold entryAssignsUser
  have hfe : (fun a => hasattrU u1 a) = fun a => hasattrU u2 a := funext h
  rw [hfe]

/-- Frame properties of the specification loop on a well-formed bag: the
user's attribute set and password-usable flag are preserved, and
`user_modified` ends up true exactly when some mapping entry assigns a
field of the user. -/
theorem specLoop_frame (attributes : Bag) (h : bagOk attributes = true) :
    ∀ (am : Mapping) (st : UState),
      (∀ b, hasattrU (specLoop attributes am st).user b = hasattrU st.user b) ∧
      (specLoop attributes am st).user.passwordUsable = st.user.passwordUsable ∧
      (specLoop attributes am st).user_modified
        = (st.user_modified || am.any (entryAssignsUser st.user attributes)) := by
  intro am
  induction am with
  | nil => intro st; simp [specLoop]
  | cons entry rest ih =>
    intro st
    cases hk : dlookup attributes entry.1 with
    | none =>
      obtain ⟨ih1, ih2, ih3⟩ := ih st
      simp only [specLoop, hk]
      refine ⟨ih1, ih2, ?_⟩
      rw [ih3]
      simp [entryAssignsUser, hk]
    | some vs =>
      cases vs with
      | nil => exact absurd rfl (bagOk_dlookup attributes h entry.1 [] hk)
      | cons v vs1 =>
        obtain ⟨e1, e2, e3, e4, e5⟩ := specEntry_frame v entry.2 st
        obtain ⟨ih1, ih2, ih3⟩ := ih (specEntry v entry.2 st)
        simp only [specLoop, hk, List.head?]
        refine ⟨?_, ?_, ?_⟩
        · intro b; rw [ih1 b, e1 b]
        · rw [ih2, e3]
        · have hfe : entryAssignsUser (specEntry v entry.2 st).user attributes
              = entryAssignsUser st.user attributes :=
            funext fun e => entryAssignsUser_congr _ _ attributes e1 e
          rw [ih3, e5, hfe]
          simp [entryAssignsUser, hk, Bool.or_assoc]

/-- When the code's per-entry loop finishes without raising, which fields
the user/profile pair exposes is unchanged. -/
theorem runEntry_frame (attributes : Bag) (k : String) :
    ∀ (attrs : List String) (st st1 : UState),
      runEntry attributes k attrs st = .ok st1 →
      ∀ b, exposes st1 b = exposes st b := by
  intro attrs
  induction attrs with
  | nil =>
    intro st st1 hres b
    cases hres
    rfl
  | cons attr rest ih =>
    intro st st1 hres b
    rw [runEntry] at hres
    cases hu : hasattrU st.user attr with
    | true =>
      rw [hu] at hres
      simp only [if_true] at hres
      cases hg : getItem0 attributes k with
      | ok v =>
        rw [hg] at hres
        have hstep : ∀ c,
            exposes ⟨setattrU st.user attr v, st.profile, true, st.profile_modified⟩ c
              = exposes st c := by
          intro c
          simp [exposes, hasattrU_setattrU st.user attr v hu c]
        rw [ih _ _ hres b, hstep b]
      | error err =>
        cases err with
        | keyError =>
          rw [hg] at hres
          cases hres
          rfl
        | indexError =>
          rw [hg] at hres
          cases hres
    | false =>
      rw [hu] at hres
      simp only [Bool.false_eq_true, if_false] at hres
      cases hp : st.profile with
      | none =>
        rw [hp] at hres
        exact ih _ _ hres b
      | some p =>
        rw [hp] at hres
        cases hq : hasattrP p attr with
        | true =>
          simp only [hq, if_true] at hres
          cases hg : getItem0 attributes k with
          | ok v =>
            rw [hg] at hres
            have hstep : ∀ c,
                exposes ⟨st.user, some (setattrP p attr v), st.user_modified, true⟩ c
                  = exposes st c := by
              intro c
              simp [exposes, hp, hasattrP_setattrP p attr v hq c]
            rw [ih _ _ hres b, hstep b]
          | error err =>
            cases err with
            | keyError =>
              rw [hg] at hres
              cases hres
              rfl
            | indexError =>
              rw [hg] at hres
              cases hres
        | false =>
          simp only [hq, Bool.false_eq_true, if_false] at hres
          exact ih _ _ hres b

/-- When an entry's attribute key maps to the empty value list and some of
its field names is exposed by the user or profile, the per-entry loop
raises an uncaught `IndexError`. -/
theorem runEntry_empty_raises (attributes : Bag) (k : String)
    (h : dlookup attributes k = some []) :
    ∀ (attrs : List String) (st : UState),
      attrs.any (exposes st) = true →
      runEntry attributes k attrs st = .error .indexError := by
  intro attrs
  induction attrs with
  | nil => intro st hany; simp at hany
  | cons attr rest ih =>
    intro st hany
    have hg : getItem0 attributes k = .error .indexError := by
      simp [getItem0, h]
    cases hu : hasattrU st.user attr with
    | true => simp [runEntry, hu, hg]
    | false =>
      cases hp : st.profile with
      | none =>
        have hrest : rest.any (exposes st) = true := by
          simp only [List.any_cons, Bool.or_eq_true] at hany
          rcases hany with h1 | h1
          · rw [exposes, hu, hp] at h1; simp at h1
          · exact h1
        simp [runEntry, hu, hp, ih st hrest]
      | some p =>
        cases hq : hasattrP p attr with
        | true => simp [runEntry, hu, hp, hq, hg]
        | false =>
          have hrest : rest.any (exposes st) = true := by
            simp only [List.any_cons, Bool.or_eq_true] at hany
            rcases hany with h1 | h1
            · rw [exposes, hu, hp] at h1; simp [hq] at h1
            · exact h1
          simp [runEntry, hu, hp, hq, ih st hrest]

/-- When some mapping entry has a key present with an empty value list and
a field name exposed by the user or profile, the whole update loop raises
an uncaught `IndexError`. -/
theorem updateLoop_empty_raises (attributes : Bag) :
    ∀ (am : Mapping) (st : UState),
      (∃ e ∈ am, dlookup attributes e.1 = some [] ∧ e.2.any (exposes st) = true) →
      updateLoop attributes am st = .error .indexError := by
  intro am
  induction am with
  | nil => intro st h; simp at h
  | cons entry rest ih =>
    intro st h
    obtain ⟨e, he, h1, h2⟩ := h
    rcases List.mem_cons.mp he with rfl | hmem
    · simp [updateLoop, runEntry_empty_raises attributes e.1 h1 e.2 st h2]
    · cases hr : runEntry attributes entry.1 entry.2 st with
      | error err =>
        cases err
        simp [updateLoop, hr]
      | ok st1 =>
        have hfe : exposes st1 = exposes st :=
          funext (runEntry_frame attributes entry.1 entry.2 st st1 hr)
        simp only [updateLoop, hr]
        exact ih st1 ⟨e, hmem, h1, by rw [hfe]; exact h2⟩

/-- When no mapping entry both targets "username" and has its attribute key
in the bag, the extraction loop leaves the accumulator unchanged. -/
theorem extractLoop_no_match (attributes : Bag) :
    ∀ (am : Mapping) (acc : Option String),
      (∀ e ∈ am, (e.2.contains "username" && (dlookup attributes e.1).isSome) = false) →
      extractLoop attributes acc am = .ok acc := by
  intro am
  induction am with
  | nil => intro acc _; rfl
  | cons entry rest ih =>
    intro acc h
    have h0 := h entry (List.mem_cons_self entry rest)
    simp only [extractLoop, h0, Bool.false_eq_true, if_false]
    exact ih acc fun e he => h e (List.mem_cons_of_mem entry he)

/-- On an empty attribute bag, no entry can match, so extraction yields the
accumulator (in particular `none` when started from `none`). -/
theorem extractLoop_empty_bag (am : Mapping) (acc : Option String) :
    extractLoop [] acc am = .ok acc :=
  extractLoop_no_match [] am acc (by intro e _; simp [dlookup])

/-- On a well-formed bag, the code's extraction loop computes exactly the
specification's last-match-wins candidate username, and never raises. -/
theorem extractLoop_eq_spec (attributes : Bag) (h : bagOk attributes = true) :
    ∀ (am : Mapping) (acc : Option String),
      extractLoop attributes acc am = .ok (specUsername attributes acc am) := by
  intro am
  induction am with
  | nil => intro acc; rfl
  | cons entry rest ih =>
    intro acc
    cases hc : entry.2.contains "username" && (dlookup attributes entry.1).isSome with
    | false => simp only [extractLoop, specUsername, hc, Bool.false_eq_true, if_false]; exact ih acc
    | true =>
      have hc2 : (dlookup attributes entry.1).isSome = true :=
        (Bool.and_eq_true_iff.mp hc).2
      obtain ⟨vs, hk⟩ := Option.isSome_iff_exists.mp hc2
      cases vs with
      | nil => exact absurd rfl (bagOk_dlookup attributes h entry.1 [] hk)
      | cons v vs1 =>
        have hg : getItem0 attributes entry.1 = .ok v := by simp [getItem0, hk]
        simp only [extractLoop, specUsername]
        rw [if_pos hc, if_pos hc, hg, hk]
        exact ih (some v)

/-- When some mapping entry targets "username" and its attribute key is in
the bag with an empty value list, extraction raises an uncaught
`IndexError`. -/
theorem extractLoop_empty_raises (attributes : Bag) :
    ∀ (am : Mapping) (acc : Option String),
      (∃ e ∈ am, e.2.contains "username" = true ∧ dlookup attributes e.1 = some []) →
      extractLoop attributes acc am = .error .indexError := by
  intro am
  induction am with
  | nil => intro acc h; simp at h
  | cons entry rest ih =>
    intro acc h
    obtain ⟨e, he, h1, h2⟩ := h
    rcases List.mem_cons.mp he with rfl | hmem
    · have hg : getItem0 attributes e.1 = .error .indexError := by
        simp [getItem0, h2]
      have hc : (e.2.contains "username" && (dlookup attributes e.1).isSome) = true := by
        rw [h1, h2]; rfl
      simp only [extractLoop]
      rw [if_pos hc, hg]
    · cases hc : entry.2.contains "username" && (dlookup attributes entry.1).isSome with
      | false =>
        simp only [extractLoop, hc, Bool.false_eq_true, if_false]
        exact ih acc ⟨e, hmem, h1, h2⟩
      | true =>
        cases hk : dlookup attributes entry.1 with
        | none =>
          rw [hk] at hc
          simp at hc
        | some vs =>
          cases vs with
          | nil =>
            have hg : getItem0 attributes entry.1 = .error .indexError := by
              simp [getItem0, hk]
            simp only [extractLoop]
            rw [if_pos hc, hg]
          | cons v vs1 =>
            have hg : getItem0 attributes entry.1 = .ok v := by
              simp [getItem0, hk]
            simp only [extractLoop]
            rw [if_pos hc, hg]
            exact ih (some v) ⟨e, hmem, h1, h2⟩

/-- Successful extraction of a username implies that the bag is non-empty
(an empty bag has no keys, so no entry can match). -/
theorem extract_some_bag_ne (attributes : Bag) (am : Mapping) (s : String)
    (h : extractLoop attributes none am = .ok (some s)) :
    attributes.isEmpty = false := by
  cases attributes with
  | nil => rw [extractLoop_empty_bag] at h; simp at h
  | cons p rest => rfl

/-! ## Claim theorems -/

/-- C1: for every bag (with the data model's non-empty value lists) and
every attribute mapping, `authenticate`'s extraction loop computes the
candidate username exactly as specified — iterate all mapping entries, for
each entry whose local-field list contains "username" and whose attribute
key is in the bag take the bag's first value, last match wins — and the
username actually used is the candidate passed through `clean_username`,
which is the identity by default. -/
theorem authenticate_username_extraction (attributes : Bag) (am : Mapping)
    (h : bagOk attributes = true) :
    extractLoop attributes none am = .ok (specUsername attributes none am) ∧
    (specUsername attributes none am).map clean_username = specUsername attributes none am := by
  refine ⟨extractLoop_eq_spec attributes h am none, ?_⟩
  cases specUsername attributes none am <;> rfl

/-- Witness for C1: two entries qualify (`uid` and `mail` both map to
"username" and are in the bag); the later entry wins, giving `a@b`. -/
theorem authenticate_username_extraction_witness :
    bagOk [("uid", ["alice"]), ("mail", ["a@b"])] = true ∧
    (extractLoop [("uid", ["alice"]), ("mail", ["a@b"])] none
        [("uid", ["username", "email"]), ("mail", ["username"])] =
      .ok (specUsername [("uid", ["alice"]), ("mail", ["a@b"])] none
        [("uid", ["username", "email"]), ("mail", ["username"])]) ∧
     (specUsername [("uid", ["alice"]), ("mail", ["a@b"])] none
        [("uid", ["username", "email"]), ("mail", ["username"])]).map clean_username =
      specUsername [("uid", ["alice"]), ("mail", ["a@b"])] none
        [("uid", ["username", "email"]), ("mail", ["username"])]) ∧
    specUsername [("uid", ["alice"]), ("mail", ["a@b"])] none
        [("uid", ["username", "email"]), ("mail", ["username"])] = some "a@b" :=
  ⟨by decide,
   authenticate_username_extraction [("uid", ["alice"]), ("mail", ["a@b"])]
     [("uid", ["username", "email"]), ("mail", ["username"])] (by decide),
   by decide⟩

/-- C8: `update_user` with an empty attribute mapping returns the account
unchanged — no field of the account or profile is mutated and no save is
performed — regardless of the `force_save` flag. -/
theorem update_user_empty_mapping (u : UserObj) (attributes : Bag)
    (pr : ProfileResult) (f : Bool) :
    update_user u attributes [] pr f =
      .ok { user := u, profile := none, userSaved := false, profileSaved := false } :=
  rfl

/-- C3: on a well-formed bag and a non-empty mapping, `update_user`
processes each entry exactly as specified (set each listed field on the
account when it has it, else on the available profile; skip entries whose
attribute key is missing from the bag), and an unavailable profile —
whether `ObjectDoesNotExist` or `SiteProfileNotAvailable` — is treated as
"no profile" rather than an error. -/
theorem update_user_field_mapping (u : UserObj) (attributes : Bag) (am : Mapping)
    (pr : ProfileResult) (f : Bool) (h : bagOk attributes = true) (hne : am ≠ []) :
    (update_user u attributes am pr f =
      .ok (let st := specLoop attributes am
             ⟨u, toProfileOpt pr, false, false⟩
           { user := st.user, profile := st.profile,
             userSaved := st.user_modified || f,
             profileSaved := st.profile.isSome && (st.profile_modified || f) })) ∧
    update_user u attributes am .objectDoesNotExist f
      = update_user u attributes am .siteProfileNotAvailable f ∧
    toProfileOpt .objectDoesNotExist = none ∧
    toProfileOpt .siteProfileNotAvailable = none := by
  refine ⟨?_, rfl, rfl, rfl⟩
  have hne2 : am.isEmpty = false := by
    cases am with
    | nil => exact absurd rfl hne
    | cons a l => rfl
  simp only [update_user, hne2, Bool.false_eq_true, if_false]
  rw [updateLoop_eq_specLoop attributes h am]

/-- Witness for C3: the `mail` value lands on the account's `email` field,
the `tel` value on the profile's `phone` field, and the entry with the
absent key `absent` is skipped silently. -/
theorem update_user_field_mapping_witness :
    update_user { fields := [("email", "old")], passwordUsable := true }
        [("mail", ["new"]), ("tel", ["123"])]
        [("mail", ["email"]), ("tel", ["phone"]), ("absent", ["email"])]
        (ProfileResult.ok { fields := [("phone", "")] }) false =
      .ok { user := { fields := [("email", "new")], passwordUsable := true },
            profile := some { fields := [("phone", "123")] },
            userSaved := true, profileSaved := true } :=
  Eq.trans
    (update_user_field_mapping { fields := [("email", "old")], passwordUsable := true }
      [("mail", ["new"]), ("tel", ["123"])]
      [("mail", ["email"]), ("tel", ["phone"]), ("absent", ["email"])]
      (ProfileResult.ok { fields := [("phone", "")] }) false
      (by decide) (by decide)).1
    (by rfl)

/-- C4 counterexample: every mapped field is set to the value it already
holds (`email` is already `"a"`) and `force_save` is false, yet
`update_user` still saves the account: the code marks the user modified on
every assignment, not on every change. -/
theorem update_user_saves_despite_no_change :
    update_user { fields := [("email", "a")], passwordUsable := true }
        [("mail", ["a"])] [("mail", ["email"])] .objectDoesNotExist false =
      .ok { user := { fields := [("email", "a")], passwordUsable := true },
            profile := none, userSaved := true, profileSaved := false } :=
  rfl

/-- C4 amended: on a well-formed bag and a non-empty mapping, the account
is saved exactly when at least one mapping entry assigned some field of the
account (an assignment of an unchanged value counts) or `force_save` is
set. -/
theorem update_user_save_iff_assigned (u : UserObj) (attributes : Bag) (am : Mapping)
    (pr : ProfileResult) (f : Bool) (h : bagOk attributes = true) (hne : am ≠ []) :
    (update_user u attributes am pr f).map UpdateOutcome.userSaved =
      .ok (anyUserAssigned u attributes am || f) := by
  have hne2 : am.isEmpty = false := by
    cases am with
    | nil => exact absurd rfl hne
    | cons a l => rfl
  obtain ⟨h1, h2, h3⟩ :=
    specLoop_frame attributes h am ⟨u, toProfileOpt pr, false, false⟩
  simp only [update_user, hne2, Bool.false_eq_true, if_false]
  rw [updateLoop_eq_specLoop attributes h am]
  show Except.ok ((specLoop attributes am ⟨u, toProfileOpt pr, false, false⟩).user_modified || f)
      = Except.ok (anyUserAssigned u attributes am || f)
  rw [h3]
  simp [anyUserAssigned]

/-- Witness for C4 amended: assigning `email := "a"` over an existing equal
value still yields a save. -/
theorem update_user_save_iff_assigned_witness :
    (update_user { fields := [("email", "a")], passwordUsable := true }
        [("mail", ["a"])] [("mail", ["email"])] .objectDoesNotExist false).map
      UpdateOutcome.userSaved = .ok true :=
  Eq.trans
    (update_user_save_iff_assigned { fields := [("email", "a")], passwordUsable := true }
      [("mail", ["a"])] [("mail", ["email"])] .objectDoesNotExist false
      (by decide) (by decide))
    (by rfl)

/-- C5 counterexample: with the empty attribute mapping, `configure_user`
still marks the credential unusable, but the account is not persisted —
`update_user` returns before its force-save logic runs. -/
theorem configure_user_empty_mapping_no_save :
    configure_user { fields := [("email", "a")], passwordUsable := true }
        [("mail", ["a"])] [] .objectDoesNotExist =
      .ok { user := { fields := [("email", "a")], passwordUsable := false },
            profile := none, userSaved := false, profileSaved := false } :=
  rfl

/-- C5 amended: for a well-formed bag and a non-empty attribute mapping,
`configure_user` marks the account's credential as unusable and the account
is persisted even if no mapped attribute changed (it delegates to
`update_user` with the force-save flag); with the empty mapping the
credential is still marked unusable but no save occurs. -/
theorem configure_user_force_save (u : UserObj) (attributes : Bag) (am : Mapping)
    (pr : ProfileResult) (h : bagOk attributes = true) (hne : am ≠ []) :
    (∃ out, configure_user u attributes am pr = .ok out ∧
       out.userSaved = true ∧ out.user.passwordUsable = false) ∧
    (∀ (u1 : UserObj) (a1 : Bag) (pr1 : ProfileResult),
      configure_user u1 a1 [] pr1 =
        .ok { user := set_unusable_password u1, profile := none,
              userSaved := false, profileSaved := false }) := by
  have hne2 : am.isEmpty = false := by
    cases am with
    | nil => exact absurd rfl hne
    | cons a l => rfl
  constructor
  · have hmain : configure_user u attributes am pr =
        .ok (let st := specLoop attributes am
               ⟨set_unusable_password u, toProfileOpt pr, false, false⟩
             { user := st.user, profile := st.profile,
               userSaved := st.user_modified || true,
               profileSaved := st.profile.isSome && (st.profile_modified || true) }) := by
      show update_user (set_unusable_password u) attributes am pr true = _
      simp only [update_user, hne2, Bool.false_eq_true, if_false]
      rw [updateLoop_eq_specLoop attributes h am]
    obtain ⟨h1, h2, h3⟩ :=
      specLoop_frame attributes h am ⟨set_unusable_password u, toProfileOpt pr, false, false⟩
    refine ⟨_, hmain, ?_, ?_⟩
    · show ((specLoop attributes am
          ⟨set_unusable_password u, toProfileOpt pr, false, false⟩).user_modified || true) = true
      simp
    · show (specLoop attributes am
          ⟨set_unusable_password u, toProfileOpt pr, false, false⟩).user.passwordUsable = false
      rw [h2]
      rfl
  · intro u1 a1 pr1
    rfl

/-- Witness for C5 amended: even though the only mapping entry's key is
absent from the bag (so nothing is assigned), the new account is saved and
its password is unusable. -/
theorem configure_user_force_save_witness :
    (∃ out, configure_user { fields := [("email", "a")], passwordUsable := true }
        [("x", ["y"])] [("mail", ["email"])] .objectDoesNotExist = .ok out ∧
       out.userSaved = true ∧ out.user.passwordUsable = false) ∧
    (∀ (u1 : UserObj) (a1 : Bag) (pr1 : ProfileResult),
      configure_user u1 a1 [] pr1 =
        .ok { user := set_unusable_password u1, profile := none,
              userSaved := false, profileSaved := false }) :=
  configure_user_force_save { fields := [("email", "a")], passwordUsable := true }
    [("x", ["y"])] [("mail", ["email"])] .objectDoesNotExist (by decide) (by decide)

/-- C2: whenever a username is extracted, `authenticate` with
`create_unknown_user = true` resolves the account through the get-or-create
primitive keyed on the cleaned username: if no account with that username
exists, a fresh one is created and passed to `configure_user`; otherwise the
existing one is passed to `update_user`; either way the resulting account is
returned. -/
theorem authenticate_create_unknown_user (db : DB) (pr : ProfileResult)
    (si : List (String × Bag)) (am : Mapping) (attributes : Bag) (s : String)
    (hsi : dlookup si "ava" = some attributes)
    (hex : extractLoop attributes none am = .ok (some s)) :
    (dbGet db (clean_username s) = none →
      authenticate db pr (some si) (some am) true =
        (configure_user (newUser (clean_username s)) attributes am pr).map
          fun out => { logs := [], user := some out.user }) ∧
    (∀ user, dbGet db (clean_username s) = some user →
      authenticate db pr (some si) (some am) true =
        (update_user user attributes am pr false).map
          fun out => { logs := [], user := some out.user }) := by
  have hbe : attributes.isEmpty = false := extract_some_bag_ne attributes am s hex
  constructor
  · intro hdb
    simp only [authenticate, hsi, hbe, Bool.false_eq_true, if_false, hex, hdb, if_true]
    cases hcfg : configure_user (newUser (clean_username s)) attributes am pr with
    | ok out => simp [Except.map, hcfg]
    | error e => simp [Except.map, hcfg]
  · intro user hdb
    simp only [authenticate, hsi, hbe, Bool.false_eq_true, if_false, hex, hdb, if_true]
    cases hupd : update_user user attributes am pr false with
    | ok out => simp [Except.map, hupd]
    | error e => simp [Except.map, hupd]

/-- Witness for C2: first call creates and configures `alice`; with `alice`
already in the database the same call updates her instead. -/
theorem authenticate_create_unknown_user_witness :
    authenticate [] .objectDoesNotExist (some [("ava", [("uid", ["alice"])])])
        (some [("uid", ["username"])]) true =
      (configure_user (newUser "alice") [("uid", ["alice"])] [("uid", ["username"])]
          .objectDoesNotExist).map (fun out => { logs := [], user := some out.user }) ∧
    authenticate [newUser "alice"] .objectDoesNotExist (some [("ava", [("uid", ["alice"])])])
        (some [("uid", ["username"])]) true =
      (update_user (newUser "alice") [("uid", ["alice"])] [("uid", ["username"])]
          .objectDoesNotExist false).map (fun out => { logs := [], user := some out.user }) :=
  ⟨(authenticate_create_unknown_user [] .objectDoesNotExist [("ava", [("uid", ["alice"])])]
      [("uid", ["username"])] [("uid", ["alice"])] "alice" rfl rfl).1 rfl,
   (authenticate_create_unknown_user [newUser "alice"] .objectDoesNotExist
      [("ava", [("uid", ["alice"])])] [("uid", ["username"])] [("uid", ["alice"])] "alice"
      rfl rfl).2 (newUser "alice") rfl⟩

/-- C6: whenever a username is extracted, `authenticate` with
`create_unknown_user = false` looks the account up by the cleaned username;
if it does not exist the call returns no account (with an error log) rather
than raising, and if it exists the account is passed to `update_user` and
the result returned. -/
theorem authenticate_lookup_only (db : DB) (pr : ProfileResult)
    (si : List (String × Bag)) (am : Mapping) (attributes : Bag) (s : String)
    (hsi : dlookup si "ava" = some attributes)
    (hex : extractLoop attributes none am = .ok (some s)) :
    (dbGet db (clean_username s) = none →
      authenticate db pr (some si) (some am) false =
        .ok { logs := ["The user \"" ++ clean_username s ++ "\" does not exist"],
              user := none }) ∧
    (∀ user, dbGet db (clean_username s) = some user →
      authenticate db pr (some si) (some am) false =
        (update_user user attributes am pr false).map
          fun out => { logs := [], user := some out.user }) := by
  have hbe : attributes.isEmpty = false := extract_some_bag_ne attributes am s hex
  constructor
  · intro hdb
    simp [authenticate, hsi, hbe, hex, hdb]
  · intro user hdb
    simp only [authenticate, hsi, hbe, Bool.false_eq_true, if_false, hex, hdb]
    cases hupd : update_user user attributes am pr false with
    | ok out => simp [Except.map, hupd]
    | error e => simp [Except.map, hupd]

/-- Witness for C6: looking up the unknown user `alice` fails with a log
and no account; with `alice` present the call reduces to `update_user`. -/
theorem authenticate_lookup_only_witness :
    authenticate [] .objectDoesNotExist (some [("ava", [("uid", ["alice"])])])
        (some [("uid", ["username"])]) false =
      .ok { logs := ["The user \"alice\" does not exist"], user := none } ∧
    authenticate [newUser "alice"] .objectDoesNotExist (some [("ava", [("uid", ["alice"])])])
        (some [("uid", ["username"])]) false =
      (update_user (newUser "alice") [("uid", ["alice"])] [("uid", ["username"])]
          .objectDoesNotExist false).map (fun out => { logs := [], user := some out.user }) :=
  ⟨(authenticate_lookup_only [] .objectDoesNotExist [("ava", [("uid", ["alice"])])]
      [("uid", ["username"])] [("uid", ["alice"])] "alice" rfl rfl).1 rfl,
   (authenticate_lookup_only [newUser "alice"] .objectDoesNotExist
      [("ava", [("uid", ["alice"])])] [("uid", ["username"])] [("uid", ["alice"])] "alice"
      rfl rfl).2 (newUser "alice") rfl⟩

/-- C7: `authenticate` returns no account, without raising, when
`session_info` is `None`, when `attribute_mapping` is `None`, when
`session_info` lacks the `ava` key, and when no mapping entry targets the
field "username" with its attribute key present in the bag. -/
theorem authenticate_failure_cases :
    (∀ (db : DB) (pr : ProfileResult) (am : Option Mapping) (c : Bool),
      authenticate db pr none am c =
        .ok { logs := ["Session info or attribute mapping are None"], user := none }) ∧
    (∀ (db : DB) (pr : ProfileResult) (si : List (String × Bag)) (c : Bool),
      authenticate db pr (some si) none c =
        .ok { logs := ["Session info or attribute mapping are None"], user := none }) ∧
    (∀ (db : DB) (pr : ProfileResult) (si : List (String × Bag)) (am : Mapping) (c : Bool),
      dlookup si "ava" = none →
      authenticate db pr (some si) (some am) c =
        .ok { logs := ["\"ava\" key not found in session_info"], user := none }) ∧
    (∀ (db : DB) (pr : ProfileResult) (si : List (String × Bag)) (am : Mapping)
        (attributes : Bag) (c : Bool),
      dlookup si "ava" = some attributes →
      (∀ e ∈ am, (e.2.contains "username" && (dlookup attributes e.1).isSome) = false) →
      (authenticate db pr (some si) (some am) c).map AuthResult.user = .ok none) := by
  refine ⟨?_, ?_, ?_, ?_⟩
  · intro db pr am c
    rfl
  · intro db pr si c
    rfl
  · intro db pr si am c hsi
    simp [authenticate, hsi]
  · intro db pr si am attributes c hsi hnone
    have hex := extractLoop_no_match attributes am none hnone
    simp [authenticate, hsi, hex, Except.map]

/-- Witness for C7: the four failure shapes at concrete inputs. -/
theorem authenticate_failure_cases_witness :
    authenticate [] .objectDoesNotExist none (some [("mail", ["email"])]) true =
      .ok { logs := ["Session info or attribute mapping are None"], user := none } ∧
    authenticate [] .objectDoesNotExist (some [("ava", [("a", ["b"])])]) none true =
      .ok { logs := ["Session info or attribute mapping are None"], user := none } ∧
    authenticate [] .objectDoesNotExist (some [("x", [("a", ["b"])])])
        (some [("mail", ["email"])]) true =
      .ok { logs := ["\"ava\" key not found in session_info"], user := none } ∧
    (authenticate [] .objectDoesNotExist (some [("ava", [("a", ["b"])])])
        (some [("mail", ["username"])]) true).map AuthResult.user = .ok none :=
  ⟨authenticate_failure_cases.1 [] .objectDoesNotExist (some [("mail", ["email"])]) true,
   authenticate_failure_cases.2.1 [] .objectDoesNotExist [("ava", [("a", ["b"])])] true,
   authenticate_failure_cases.2.2.1 [] .objectDoesNotExist [("x", [("a", ["b"])])]
     [("mail", ["email"])] true rfl,
   authenticate_failure_cases.2.2.2 [] .objectDoesNotExist [("ava", [("a", ["b"])])]
     [("mail", ["username"])] [("a", ["b"])] true rfl (by decide)⟩

/-- C9: an attribute bag that is present but empty does not make
`authenticate` fail at the emptiness check: it logs the warning and
continues to username extraction, which then finds nothing, so the call
returns no account with both log messages; in particular
`authenticate({'ava': {}}, {'email': ['username']}, true)` returns no
account. -/
theorem authenticate_empty_bag_continues :
    (∀ (db : DB) (pr : ProfileResult) (si : List (String × Bag)) (am : Mapping) (c : Bool),
      dlookup si "ava" = some [] →
      authenticate db pr (some si) (some am) c =
        .ok { logs := ["The attributes dictionary is empty",
                       "Could not find saml_user value"],
              user := none }) ∧
    authenticate [] .objectDoesNotExist (some [("ava", [])])
        (some [("email", ["username"])]) true =
      .ok { logs := ["The attributes dictionary is empty",
                     "Could not find saml_user value"],
            user := none } := by
  have hmain : ∀ (db : DB) (pr : ProfileResult) (si : List (String × Bag))
      (am : Mapping) (c : Bool),
      dlookup si "ava" = some [] →
      authenticate db pr (some si) (some am) c =
        .ok { logs := ["The attributes dictionary is empty",
                       "Could not find saml_user value"],
              user := none } := by
    intro db pr si am c hsi
    have hex := extractLoop_empty_bag am none
    simp [authenticate, hsi, hex]
  exact ⟨hmain, hmain [] .objectDoesNotExist [("ava", [])] [("email", ["username"])] true rfl⟩

/-- Witness for C9: the empty bag buried in a larger session dictionary
still yields the two logs and no account. -/
theorem authenticate_empty_bag_continues_witness :
    authenticate [newUser "bob"] (ProfileResult.ok { fields := [] })
        (some [("junk", [("a", ["b"])]), ("ava", [])]) (some [("uid", ["username"])]) false =
      .ok { logs := ["The attributes dictionary is empty",
                     "Could not find saml_user value"],
            user := none } :=
  authenticate_empty_bag_continues.1 [newUser "bob"] (ProfileResult.ok { fields := [] })
    [("junk", [("a", ["b"])]), ("ava", [])] [("uid", ["username"])] false rfl

/-- C10: an attribute key that is present in the bag but maps to an empty
value sequence makes taking the first value raise an uncaught IndexError:
in `authenticate` when such a key belongs to a qualifying username entry,
and in `update_user` when such a key's entry lists a field exposed by the
account or the available profile; only a missing key is tolerated. -/
theorem empty_value_list_raises :
    (∀ (db : DB) (pr : ProfileResult) (si : List (String × Bag)) (am : Mapping)
        (attributes : Bag) (c : Bool),
      dlookup si "ava" = some attributes →
      (∃ e ∈ am, e.2.contains "username" = true ∧ dlookup attributes e.1 = some []) →
      authenticate db pr (some si) (some am) c = .error .indexError) ∧
    (∀ (u : UserObj) (attributes : Bag) (am : Mapping) (pr : ProfileResult) (f : Bool),
      (∃ e ∈ am, dlookup attributes e.1 = some [] ∧
        e.2.any (exposes ⟨u, toProfileOpt pr, false, false⟩) = true) →
      update_user u attributes am pr f = .error .indexError) := by
  constructor
  · intro db pr si am attributes c hsi hbad
    have hex := extractLoop_empty_raises attributes am none hbad
    simp [authenticate, hsi, hex]
  · intro u attributes am pr f hbad
    have hne2 : am.isEmpty = false := by
      obtain ⟨e, he, _, _⟩ := hbad
      cases am with
      | nil => simp at he
      | cons a l => rfl
    have hloop := updateLoop_empty_raises attributes am ⟨u, toProfileOpt pr, false, false⟩ hbad
    simp only [update_user, hne2, Bool.false_eq_true, if_false]
    rw [hloop]

/-- Witness for C10: a qualifying username entry over `uid → []` makes
`authenticate` raise, and an entry over `mail → []` targeting the exposed
`email` field makes `update_user` raise. -/
theorem empty_value_list_raises_witness :
    authenticate [] .objectDoesNotExist (some [("ava", [("uid", [])])])
        (some [("uid", ["username"])]) true = .error .indexError ∧
    update_user { fields := [("email", "x")], passwordUsable := true }
        [("mail", [])] [("mail", ["email"])] .objectDoesNotExist false =
      .error .indexError :=
  ⟨empty_value_list_raises.1 [] .objectDoesNotExist [("ava", [("uid", [])])]
     [("uid", ["username"])] [("uid", [])] true rfl (by decide),
   empty_value_list_raises.2 { fields := [("email", "x")], passwordUsable := true }
     [("mail", [])] [("mail", ["email"])] .objectDoesNotExist false (by decide)⟩
